import Mathlib

/-!
# PayStation SDK core: request construction, validation and response parsing

Shallow embedding of the TypeScript sources of the `paystation` client
library (`src/request/RequestBuilder.ts`, `src/response/ResponseParser.ts`,
`src/config/ConfigManager.ts`) together with theorems checking the
natural-language specification against that embedding.

JavaScript runtime values that flow through the untyped parts of the code
(response bodies, raw configuration, raw parameters) are modelled by the
inductive `JSValue`.  JS numbers are modelled by `ℚ` (the code only
compares them with `0` and stringifies them; `NaN`/infinities are not
modelled).  Thrown exceptions are modelled by `Except`/`Option` results.
-/

namespace PayStation

/-- A JavaScript runtime value, as observed by the SDK code:
`undefined`, `null`, booleans, numbers (modelled as `ℚ`), strings, and
plain objects (a key/value association list; first occurrence wins, as in
a JS object literal). -/
inductive JSValue where
  | undef : JSValue
  | nullv : JSValue
  | boolean (b : Bool) : JSValue
  | num (n : ℚ) : JSValue
  | str (s : String) : JSValue
  | obj (fields : List (String × JSValue)) : JSValue

/-- JS truthiness: `undefined`, `null`, `false`, `0` and `""` are falsy,
every other modelled value (including every object) is truthy. -/
def truthy : JSValue → Bool
  | .undef => false
  | .nullv => false
  | .boolean b => b
  | .num n => if n = 0 then false else true
  | .str s => if s = "" then false else true
  | .obj _ => true

/-- `typeof v === 'string'`. -/
def isString : JSValue → Bool
  | .str _ => true
  | _ => false

/-- `typeof v === 'number'`. -/
def isNumber : JSValue → Bool
  | .num _ => true
  | _ => false

/-- `typeof v === 'object'` (true for plain objects and for `null`). -/
def isObjectType : JSValue → Bool
  | .obj _ => true
  | .nullv => true
  | _ => false

/-- `v === undefined`. -/
def isUndefined : JSValue → Bool
  | .undef => true
  | _ => false

/-- Property access `v.k` on a JS value: field lookup on objects,
`undefined` otherwise (property access on primitives yields `undefined`
for the property names used by this code). -/
def jsGet : JSValue → String → JSValue
  | .obj fields, k => ((fields.lookup k).getD .undef)
  | _, _ => (.undef)

/-- Decimal rendering of a JS number.  Exact for integers (the only
numeric values whose rendering any theorem below depends on); for
non-integral rationals JavaScript's shortest-round-trip float printing is
abstracted to the reduced-fraction form. -/
def ratToString (n : ℚ) : String :=
  if n.den = 1 then toString n.num else toString n

/-- `String(v)`: JS string coercion of the modelled values. -/
def jsToString : JSValue → String
  | .undef => "undefined"
  | .nullv => "null"
  | .boolean true => "true"
  | .boolean false => "false"
  | .num n => ratToString n
  | .str s => s
  | .obj _ => "[object Object]"

/-- `Number(v)` coercion, used only for the v2 `transactionAmount` field.
Exact on numbers, booleans and `null`; the string-to-float parse is
abstracted (no theorem below depends on it). -/
def jsToNumber : JSValue → ℚ
  | .num n => n
  | .boolean true => 1
  | .boolean false => 0
  | _ => 0

/-- The SDK error taxonomy (`src/errors`): every error carries a message;
`AuthenticationError` and the base `PayStationError` also carry an
optional status code.  The parse paths construct `PayStationError` with
raw (`any`-typed) body values, so its payload is kept as `JSValue`. -/
inductive PSError where
  | validationError (message : String) : PSError
  | authenticationError (message : String) (statusCode : String) : PSError
  | payStationError (message : JSValue) (statusCode : JSValue) : PSError

/-! ## ConfigManager (`src/config/ConfigManager.ts`) -/

/-- A raw (unvalidated) `PayStationConfig` object: each field may hold an
arbitrary runtime value. -/
structure RawConfig where
  merchantId : JSValue
  password : JSValue
  environment : JSValue

/-- JS `String.prototype.trim`, modelled on the character list so that it
evaluates definitionally.  JS trims Unicode whitespace; this model trims
ASCII whitespace. -/
def trimChars (s : String) : List Char :=
  ((s.data.dropWhile Char.isWhitespace).reverse.dropWhile Char.isWhitespace).reverse

/-- `Environment` enum string values: `Object.values(Environment)`. -/
def environmentValues : List String := ["sandbox", "live"]

/-- `Object.values(Environment).includes(v)` — `includes` compares with
SameValueZero, so a non-string `v` never matches the enum's strings. -/
def envIncludes : JSValue → Bool
  | .str s => environmentValues.contains s
  | _ => false

/-- `ConfigManager.validateConfig`, returning the first thrown
`ValidationError` (as `some`) or `none` when validation passes.  The
`Option RawConfig` argument models a possibly `null`/`undefined` config
(`!config`). -/
def validateConfig : Option RawConfig → Option PSError
  | none => some (.validationError "Configuration is required")
  | some config =>
    if ¬ isString config.merchantId then
      some (.validationError "merchantId is required and must be a non-empty string")
    else if (trimChars (jsToString config.merchantId)).isEmpty then
      some (.validationError "merchantId cannot be empty or whitespace only")
    else if ¬ isString config.password then
      some (.validationError "password is required and must be a non-empty string")
    else if (trimChars (jsToString config.password)).isEmpty then
      some (.validationError "password cannot be empty or whitespace only")
    else if ¬ truthy config.environment then
      some (.validationError "environment is required")
    else if ¬ envIncludes config.environment then
      some (.validationError
        ("Invalid environment: " ++ jsToString config.environment ++
         ". Must be one of: sandbox, live"))
    else none

/-- The state of a successfully constructed `ConfigManager`: the copied
configuration (all three fields are strings once validation passed). -/
structure ConfigManagerState where
  merchantId : String
  password : String
  environment : String

/-- The `ConfigManager` constructor: validate, then copy the config. -/
def mkConfigManager (config : Option RawConfig) : Except PSError ConfigManagerState :=
  match config with
  | none => .error (.validationError "Configuration is required")
  | some c =>
    match validateConfig (some c) with
    | some e => .error e
    | none =>
      .ok { merchantId := jsToString c.merchantId
            password := jsToString c.password
            environment := jsToString c.environment }

/-- `ConfigManager.BASE_URLS` lookup; `none` models the JS `undefined`
result of indexing the table with an unknown key (unreachable after
validation). -/
def baseUrlFor (env : String) : Option String :=
  if env = "sandbox" then some "https://sandbox.paystation.com.bd/api"
  else if env = "live" then some "https://api.paystation.com.bd"
  else none

/-- `ConfigManager.getBaseUrl`. -/
def getBaseUrl (c : ConfigManagerState) : String :=
  (baseUrlFor c.environment).getD "undefined"

/-- `ConfigManager.getMerchantId`. -/
def getMerchantId (c : ConfigManagerState) : String := c.merchantId

/-- `ConfigManager.getPassword`. -/
def getPassword (c : ConfigManagerState) : String := c.password

/-- `ConfigManager.getEnvironment`. -/
def getEnvironment (c : ConfigManagerState) : String := c.environment

/-! ## RequestBuilder (`src/request/RequestBuilder.ts`) -/

/-- A raw `InitiatePaymentParams` object: every field may hold an
arbitrary runtime value; an absent field is `JSValue.undef`. -/
structure InitiatePaymentParams where
  invoiceNumber : JSValue := .undef
  currency : JSValue := .undef
  paymentAmount : JSValue := .undef
  payWithCharge : JSValue := .undef
  reference : JSValue := .undef
  customerName : JSValue := .undef
  customerPhone : JSValue := .undef
  customerEmail : JSValue := .undef
  customerAddress : JSValue := .undef
  callbackUrl : JSValue := .undef
  checkoutItems : JSValue := .undef
  optA : JSValue := .undef
  optB : JSValue := .undef
  optC : JSValue := .undef
  emi : JSValue := (.undef)

/-- `RequestBuilder.validateRequiredString`: not a string, or
empty/whitespace-only after trimming, is rejected (first thrown error as
`some`). -/
def validateRequiredString (value : JSValue) (fieldName : String) : Option PSError :=
  match value with
  | .str s =>
      if (trimChars s).isEmpty then
        some (.validationError (fieldName ++ " cannot be empty or whitespace only"))
      else none
  | _ => some (.validationError (fieldName ++ " is required and must be a string"))

/-- A character admitted by the `[^\s@]` regex class.  JS `\s` also
covers some Unicode spaces; this model uses ASCII whitespace. -/
def isEmailChar (c : Char) : Bool := ¬ (c = '@' ∨ c.isWhitespace)

/-- `RequestBuilder.isValidEmail`: the regex
`/^[^\s@]+@[^\s@]+\.[^\s@]+$/` — exactly one `@`, a nonempty local part,
and a domain containing a dot with nonempty `[^\s@]+` runs on both sides
(equivalently: a dot at an interior position of the domain). -/
def isValidEmail (email : String) : Bool :=
  match email.data.splitOn '@' with
  | [localPart, domain] =>
      !localPart.isEmpty && localPart.all isEmailChar &&
      domain.all isEmailChar && ((domain.drop 1).dropLast).contains '.'
  | _ => false

/-- Whether the part after `scheme://` begins a host.  Part of the model
of the WHATWG `URL` parser (a platform builtin, external to this
repository): nonempty and not starting with `/` or a space. -/
def validHostStart : List Char → Bool
  | [] => false
  | c :: _ => c ≠ '/' && c ≠ ' '

/-- `RequestBuilder.isValidUrl`: `new URL(url)` parses and the scheme is
`http` or `https`.  The WHATWG parser is abstracted: the lowercased
string must start with `http://` or `https://` followed by a host. -/
def isValidUrl (url : String) : Bool :=
  let t := url.data.map Char.toLower
  (t.take 7 == "http://".data && validHostStart (t.drop 7)) ||
  (t.take 8 == "https://".data && validHostStart (t.drop 8))

/-- The `paymentAmount` checks of `validateInitiatePaymentParams`:
must be of number type and strictly greater than 0. -/
def validatePaymentAmount (v : JSValue) : Option PSError :=
  match v with
  | .num n =>
      if n ≤ 0 then some (.validationError "paymentAmount must be greater than 0")
      else none
  | _ => some (.validationError "paymentAmount must be a number")

/-- The optional-numeric-field checks of `validateInitiatePaymentParams`
(`payWithCharge`, `emi`): skipped when `undefined`, otherwise must be of
number type and not negative. -/
def validateOptionalNonNegNumber (v : JSValue) (notNumberMsg negativeMsg : String) :
    Option PSError :=
  match v with
  | .undef => none
  | .num n => if n < 0 then some (.validationError negativeMsg) else none
  | _ => some (.validationError notNumberMsg)

/-- The email-format check of `validateInitiatePaymentParams`
(`regex.test` coerces its argument to a string). -/
def validateEmailFormat (v : JSValue) : Option PSError :=
  if isValidEmail (jsToString v) then none
  else some (.validationError "customerEmail must be a valid email address")

/-- The callback-URL check of `validateInitiatePaymentParams`. -/
def validateUrlFormat (v : JSValue) : Option PSError :=
  if isValidUrl (jsToString v) then none
  else some (.validationError "callbackUrl must be a valid URL")

/-- `RequestBuilder.validateInitiatePaymentParams` on a present params
object: the sequence of checks after the `!params` guard, first thrown
error as `some`. -/
def validateInitiatePaymentParamsSome (p : InitiatePaymentParams) : Option PSError :=
  validateRequiredString p.invoiceNumber "invoiceNumber" <|>
  validateRequiredString p.customerName "customerName" <|>
  validateRequiredString p.customerPhone "customerPhone" <|>
  validateRequiredString p.customerEmail "customerEmail" <|>
  validateRequiredString p.callbackUrl "callbackUrl" <|>
  validatePaymentAmount p.paymentAmount <|>
  validateOptionalNonNegNumber p.payWithCharge
    "payWithCharge must be a number" "payWithCharge cannot be negative" <|>
  validateOptionalNonNegNumber p.emi
    "emi must be a number" "emi cannot be negative" <|>
  validateEmailFormat p.customerEmail <|>
  validateUrlFormat p.callbackUrl

/-- `RequestBuilder.validateInitiatePaymentParams`, including the
`!params` guard (`none` argument models a `null`/`undefined` params
object). -/
def validateInitiatePaymentParams : Option InitiatePaymentParams → Option PSError
  | none => some (.validationError "Payment parameters are required")
  | some p => validateInitiatePaymentParamsSome p

/-- An `HttpRequest` as emitted by the builder; the `URLSearchParams`
body is modelled as the ordered list of appended key/value pairs. -/
structure HttpRequest where
  url : String
  method : String
  headers : List (String × String)
  body : List (String × String)

/-- The headers set by all three builder operations. -/
def formHeaders : List (String × String) :=
  [("Content-Type", "application/x-www-form-urlencoded"),
   ("Accept", "application/json")]

/-- `RequestBuilder.buildInitiatePaymentRequest`. -/
def buildInitiatePaymentRequest (cfg : ConfigManagerState)
    (params : Option InitiatePaymentParams) : Except PSError HttpRequest :=
  match params with
  | none => .error (.validationError "Payment parameters are required")
  | some p =>
    match validateInitiatePaymentParamsSome p with
    | some e => .error e
    | none =>
      .ok { url := getBaseUrl cfg ++ "/initiate-payment"
            method := "POST"
            headers := formHeaders
            body :=
              [("merchant_id", getMerchantId cfg),
               ("password", getPassword cfg),
               ("invoice_number", jsToString p.invoiceNumber),
               ("payment_amount", jsToString p.paymentAmount),
               ("customer_name", jsToString p.customerName),
               ("customer_phone", jsToString p.customerPhone),
               ("customer_email", jsToString p.customerEmail),
               ("callback_url", jsToString p.callbackUrl)]
              ++ (if truthy p.currency then [("currency", jsToString p.currency)] else [])
              ++ (if isUndefined p.payWithCharge then []
                  else [("pay_with_charge", jsToString p.payWithCharge)])
              ++ (if truthy p.reference then [("reference", jsToString p.reference)] else [])
              ++ (if truthy p.customerAddress then
                    [("customer_address", jsToString p.customerAddress)] else [])
              ++ (if truthy p.checkoutItems then
                    [("checkout_items", jsToString p.checkoutItems)] else [])
              ++ (if truthy p.optA then [("opt_a", jsToString p.optA)] else [])
              ++ (if truthy p.optB then [("opt_b", jsToString p.optB)] else [])
              ++ (if truthy p.optC then [("opt_c", jsToString p.optC)] else [])
              ++ (if isUndefined p.emi then [] else [("emi", jsToString p.emi)]) }

/-- `RequestBuilder.buildTransactionStatusRequest` (status by invoice
number). -/
def buildTransactionStatusRequest (cfg : ConfigManagerState)
    (invoiceNumber : JSValue) : Except PSError HttpRequest :=
  match validateRequiredString invoiceNumber "invoiceNumber" with
  | some e => .error e
  | none =>
      .ok { url := getBaseUrl cfg ++ "/transaction-status"
            method := "POST"
            headers := formHeaders
            body :=
              [("merchant_id", getMerchantId cfg),
               ("password", getPassword cfg),
               ("invoice_number", jsToString invoiceNumber)] }

/-- `RequestBuilder.buildTransactionStatusByIdRequest` (status by
transaction id, v2 endpoint). -/
def buildTransactionStatusByIdRequest (cfg : ConfigManagerState)
    (transactionId : JSValue) : Except PSError HttpRequest :=
  match validateRequiredString transactionId "transactionId" with
  | some e => .error e
  | none =>
      .ok { url := getBaseUrl cfg ++ "/v2/transaction-status"
            method := "POST"
            headers := formHeaders
            body :=
              [("merchant_id", getMerchantId cfg),
               ("password", getPassword cfg),
               ("trx_id", jsToString transactionId)] }

/-! ## ResponseParser (`src/response/ResponseParser.ts`) -/

/-- A wire response handed to the parser by the transport: HTTP status
code, status text and the decoded body. -/
structure HttpResponse where
  status : Nat
  statusText : String
  data : JSValue

/-- `ResponseParser.validateResponseStructure`.  The `!response` guard
cannot fire in this embedding (a Lean `HttpResponse` value is never
`null`); the remaining checks reject a `null`/`undefined` body and a
non-object body (`typeof null === 'object'`, but `null` is caught by the
first check). -/
def validateResponseStructure (response : HttpResponse) : Option PSError :=
  match response.data with
  | .nullv => some (.validationError "Response data is null or undefined")
  | .undef => some (.validationError "Response data is null or undefined")
  | .obj _ => none
  | _ => some (.validationError "Response data is not an object")

/-- `v === 'failed'` — true only for the string `"failed"`. -/
def statusIsFailed : JSValue → Bool
  | .str s => s == "failed"
  | _ => false

/-- `v || ''`: the value if truthy, else the empty string. -/
def jsOrEmptyString (v : JSValue) : JSValue :=
  if truthy v then v else .str ""

/-- `if (v !== undefined) field = String(v)` — an optional stringified
field copy. -/
def optStringField (v : JSValue) : Option String :=
  if isUndefined v then none else some (jsToString v)

/-- The typed result of `parseInitiatePaymentResponse`.  `status` is
copied from the body as-is (no coercion in the source), so it stays a
`JSValue`. -/
structure InitiatePaymentResponse where
  statusCode : String
  status : JSValue
  message : String
  paymentAmount : Option String := none
  invoiceNumber : Option String := none
  paymentUrl : Option String := none

/-- The typed transaction record produced by `parseTransactionData`.
`transactionStatus` and `paymentMethod` are copied as-is (no coercion in
the source). -/
structure TransactionData where
  invoiceNumber : String
  transactionStatus : JSValue
  transactionId : String
  paymentAmount : String
  orderDateTime : String
  payerMobileNumber : Option String := none
  paymentMethod : Option JSValue := none
  reference : Option String := none
  checkoutItems : Option String := none
  transactionAmount : Option ℚ := none
  transactionDate : Option String := none
  requestAmount : Option String := none

/-- The typed result of `parseTransactionStatusResponse`. -/
structure TransactionStatusResponse where
  statusCode : String
  status : JSValue
  message : String
  data : Option TransactionData := none

/-- `ResponseParser.parseTransactionData`.  The source guard
`!data || typeof data !== 'object'` is the non-object match arm: every
falsy modelled value is also a non-object, and both throw the same
`ValidationError`. -/
def parseTransactionData (d : JSValue) : Except PSError TransactionData :=
  match d with
  | .obj _ =>
    if ¬ truthy (jsGet d "invoiceNumber") ∨ ¬ truthy (jsGet d "transactionStatus") ∨
       ¬ truthy (jsGet d "transactionId") then
      .error (.validationError "Invalid transaction data: missing required fields")
    else
      .ok { invoiceNumber := jsToString (jsGet d "invoiceNumber")
            transactionStatus := jsGet d "transactionStatus"
            transactionId := jsToString (jsGet d "transactionId")
            paymentAmount := jsToString (jsOrEmptyString (jsGet d "paymentAmount"))
            orderDateTime := jsToString (jsOrEmptyString (jsGet d "orderDateTime"))
            payerMobileNumber := optStringField (jsGet d "payerMobileNumber")
            paymentMethod :=
              if isUndefined (jsGet d "paymentMethod") then none
              else some (jsGet d "paymentMethod")
            reference := optStringField (jsGet d "reference")
            checkoutItems := optStringField (jsGet d "checkoutItems")
            transactionAmount :=
              if isUndefined (jsGet d "transactionAmount") then none
              else some (jsToNumber (jsGet d "transactionAmount"))
            transactionDate := optStringField (jsGet d "transactionDate")
            requestAmount := optStringField (jsGet d "requestAmount") }
  | _ => .error (.validationError "Invalid transaction data format")

/-- `ResponseParser.parseInitiatePaymentResponse`. -/
def parseInitiatePaymentResponse (response : HttpResponse) :
    Except PSError InitiatePaymentResponse :=
  match validateResponseStructure response with
  | some e => .error e
  | none =>
    let data := response.data
    if ¬ truthy (jsGet data "statusCode") ∨ ¬ truthy (jsGet data "status") ∨
       ¬ truthy (jsGet data "message") then
      .error (.validationError
        "Invalid response format: missing required fields (statusCode, status, message)")
    else if statusIsFailed (jsGet data "status") then
      .error (.payStationError (jsGet data "message") (jsGet data "statusCode"))
    else
      .ok { statusCode := jsToString (jsGet data "statusCode")
            status := jsGet data "status"
            message := jsToString (jsGet data "message")
            paymentAmount := optStringField (jsGet data "paymentAmount")
            invoiceNumber := optStringField (jsGet data "invoiceNumber")
            paymentUrl := optStringField (jsGet data "paymentUrl") }

/-- `ResponseParser.parseTransactionStatusResponse`. -/
def parseTransactionStatusResponse (response : HttpResponse) :
    Except PSError TransactionStatusResponse :=
  match validateResponseStructure response with
  | some e => .error e
  | none =>
    let data := response.data
    if ¬ truthy (jsGet data "statusCode") ∨ ¬ truthy (jsGet data "status") ∨
       ¬ truthy (jsGet data "message") then
      .error (.validationError
        "Invalid response format: missing required fields (statusCode, status, message)")
    else if statusIsFailed (jsGet data "status") then
      .error (.payStationError (jsGet data "message") (jsGet data "statusCode"))
    else if truthy (jsGet data "data") then
      match parseTransactionData (jsGet data "data") with
      | .error e => .error e
      | .ok td =>
          .ok { statusCode := jsToString (jsGet data "statusCode")
                status := jsGet data "status"
                message := jsToString (jsGet data "message")
                data := some td }
    else
      .ok { statusCode := jsToString (jsGet data "statusCode")
            status := jsGet data "status"
            message := jsToString (jsGet data "message")
            data := none }

/-- `ResponseParser.extractErrorMessage`: the stringified `message` field
of the body when the body is a truthy object with a truthy `message`,
else `null` (`none`). -/
def extractErrorMessage (response : HttpResponse) : Option String :=
  let data := response.data
  if truthy data && isObjectType data && truthy (jsGet data "message") then
    some (jsToString (jsGet data "message"))
  else none

/-- `ResponseParser.parseErrorResponse`: maps HTTP status codes to the
error taxonomy; always throws, so it is modelled as returning the thrown
error. -/
def parseErrorResponse (response : HttpResponse) : PSError :=
  if response.status = 401 ∨ response.status = 403 then
    .authenticationError ((extractErrorMessage response).getD "Authentication failed")
      (toString response.status)
  else if response.status = 400 then
    .validationError ((extractErrorMessage response).getD "Invalid request parameters")
  else
    .payStationError
      (.str ((extractErrorMessage response).getD
        ("HTTP " ++ toString response.status ++ ": " ++ response.statusText)))
      (.str (toString response.status))

/-! ## Specification-side definitions

Definitions below follow the wording of the specification (and of its
claims), to be compared with the code-side definitions above. -/

/-- Spec-side: the validation rules of the initiate-payment operation, in
the fixed order the specification prescribes. -/
inductive InitiateRule where
  | paramsPresent
  | invoiceNumberString
  | customerNameString
  | customerPhoneString
  | customerEmailString
  | callbackUrlString
  | paymentAmountPositive
  | payWithChargeNonNegative
  | emiNonNegative
  | customerEmailPattern
  | callbackUrlParses

/-- Spec-side: "of string type and non-empty after trimming". -/
def specNonEmptyString (v : JSValue) : Bool :=
  match v with
  | .str s => !(trimChars s).isEmpty
  | _ => false

/-- Spec-side: whether a rule is violated by a (present) params object;
each rule's check is taken from the specification's wording.
`paramsPresent` is never violated once a params object is given. -/
def ruleViolated (p : InitiatePaymentParams) : InitiateRule → Bool
  | .paramsPresent => false
  | .invoiceNumberString => !specNonEmptyString p.invoiceNumber
  | .customerNameString => !specNonEmptyString p.customerName
  | .customerPhoneString => !specNonEmptyString p.customerPhone
  | .customerEmailString => !specNonEmptyString p.customerEmail
  | .callbackUrlString => !specNonEmptyString p.callbackUrl
  | .paymentAmountPositive =>
      match p.paymentAmount with
      | .num n => decide (n ≤ 0)
      | _ => true
  | .payWithChargeNonNegative =>
      match p.payWithCharge with
      | .undef => false
      | .num n => decide (n < 0)
      | _ => true
  | .emiNonNegative =>
      match p.emi with
      | .undef => false
      | .num n => decide (n < 0)
      | _ => true
  | .customerEmailPattern => !isValidEmail (jsToString p.customerEmail)
  | .callbackUrlParses => !isValidUrl (jsToString p.callbackUrl)

/-- The error the code raises when a required-string rule is violated
(the code distinguishes a type failure from an emptiness failure). -/
def requiredStringError (v : JSValue) (fieldName : String) : PSError :=
  if isString v then .validationError (fieldName ++ " cannot be empty or whitespace only")
  else .validationError (fieldName ++ " is required and must be a string")

/-- The `ValidationError` the code raises for each violated rule. -/
def ruleError (p : InitiatePaymentParams) : InitiateRule → PSError
  | .paramsPresent => .validationError "Payment parameters are required"
  | .invoiceNumberString => requiredStringError p.invoiceNumber "invoiceNumber"
  | .customerNameString => requiredStringError p.customerName "customerName"
  | .customerPhoneString => requiredStringError p.customerPhone "customerPhone"
  | .customerEmailString => requiredStringError p.customerEmail "customerEmail"
  | .callbackUrlString => requiredStringError p.callbackUrl "callbackUrl"
  | .paymentAmountPositive =>
      if isNumber p.paymentAmount then .validationError "paymentAmount must be greater than 0"
      else .validationError "paymentAmount must be a number"
  | .payWithChargeNonNegative =>
      if isNumber p.payWithCharge then .validationError "payWithCharge cannot be negative"
      else .validationError "payWithCharge must be a number"
  | .emiNonNegative =>
      if isNumber p.emi then .validationError "emi cannot be negative"
      else .validationError "emi must be a number"
  | .customerEmailPattern => .validationError "customerEmail must be a valid email address"
  | .callbackUrlParses => .validationError "callbackUrl must be a valid URL"

/-- The result a single spec rule contributes: its error when violated. -/
def ruleCheck (p : InitiatePaymentParams) (r : InitiateRule) : Option PSError :=
  if ruleViolated p r then some (ruleError p r) else none

/-- The fixed rule order of the specification. -/
def initiateRuleOrder : List InitiateRule :=
  [.paramsPresent, .invoiceNumberString, .customerNameString, .customerPhoneString,
   .customerEmailString, .callbackUrlString, .paymentAmountPositive,
   .payWithChargeNonNegative, .emiNonNegative, .customerEmailPattern, .callbackUrlParses]

/-- Spec-side: the earliest violated rule, in the fixed order. -/
def firstViolatedRule (p : InitiatePaymentParams) : Option InitiateRule :=
  (initiateRuleOrder.filter (ruleViolated p)).head?

/-- Spec-side (amended claim C4): the body key list the builder is
expected to produce — the eight required snake_case keys, followed by
the keys of the optional fields the code includes (truthy string-valued
optionals; `pay_with_charge`/`emi` whenever defined). -/
def expectedBodyKeys (p : InitiatePaymentParams) : List String :=
  ["merchant_id", "password", "invoice_number", "payment_amount",
   "customer_name", "customer_phone", "customer_email", "callback_url"]
  ++ (if truthy p.currency then ["currency"] else [])
  ++ (if isUndefined p.payWithCharge then [] else ["pay_with_charge"])
  ++ (if truthy p.reference then ["reference"] else [])
  ++ (if truthy p.customerAddress then ["customer_address"] else [])
  ++ (if truthy p.checkoutItems then ["checkout_items"] else [])
  ++ (if truthy p.optA then ["opt_a"] else [])
  ++ (if truthy p.optB then ["opt_b"] else [])
  ++ (if truthy p.optC then ["opt_c"] else [])
  ++ (if isUndefined p.emi then [] else ["emi"])

/-- Spec-side (claim C8): "one of the two recognized values" — an absent
environment is not a recognized value. -/
def specRecognizedEnv : JSValue → Bool
  | .str s => s == "sandbox" || s == "live"
  | _ => false

/-- Spec-side (claim C8): the configuration-rejection condition — config
absent, merchantId or password not a string or empty/whitespace-only
after trimming, or environment not one of the two recognized values. -/
def specConfigRejected : Option RawConfig → Bool
  | none => true
  | some c =>
      !(isString c.merchantId && !(trimChars (jsToString c.merchantId)).isEmpty) ||
      !(isString c.password && !(trimChars (jsToString c.password)).isEmpty) ||
      !specRecognizedEnv c.environment

/-- Spec-side (amended claim C3): the error message used by the
transport-failure path — the stringified `message` field when the body
is an object with a truthy `message` field, else the given default. -/
def specErrorMessage (body : JSValue) (defaultMsg : String) : String :=
  match body with
  | .obj _ =>
      if truthy (jsGet body "message") then jsToString (jsGet body "message") else defaultMsg
  | _ => defaultMsg

/-! Concrete fixtures used by witnesses and counterexamples. -/

/-- A validated configuration used as a fixture. -/
def sampleConfig : ConfigManagerState :=
  { merchantId := "merchant-1", password := "pw-1", environment := "sandbox" }

/-- A fully valid initiate-payment params fixture (only required
fields). -/
def sampleParams : InitiatePaymentParams :=
  { invoiceNumber := .str "INV-1"
    paymentAmount := .num 10
    customerName := .str "Jo Doe"
    customerPhone := .str "0170000000"
    customerEmail := .str "jo@example.com"
    callbackUrl := .str "https://shop.example.com/cb" }

/-! ## Theorems -/

/-- C2: for every wire response whose body is an object with truthy
statusCode, status and message fields and status equal to "failed", both
parseInitiatePaymentResponse and parseTransactionStatusResponse throw a
PayStationError carrying the body's message and the body's statusCode,
regardless of the HTTP status code. -/
theorem failed_status_raises_provider_error (response : HttpResponse)
    (fields : List (String × JSValue))
    (hobj : response.data = .obj fields)
    (hsc : truthy (jsGet response.data "statusCode") = true)
    (hst : jsGet response.data "status" = .str "failed")
    (hmsg : truthy (jsGet response.data "message") = true) :
    parseInitiatePaymentResponse response =
      .error (.payStationError (jsGet response.data "message")
        (jsGet response.data "statusCode")) ∧
    parseTransactionStatusResponse response =
      .error (.payStationError (jsGet response.data "message")
        (jsGet response.data "statusCode")) := by
  have hval : validateResponseStructure response = none := by
    unfold validateResponseStructure
    rw [hobj]
  have hts : truthy (jsGet response.data "status") = true := by rw [hst]; rfl
  have hfail : statusIsFailed (jsGet response.data "status") = true := by rw [hst]; rfl
  constructor
  · unfold parseInitiatePaymentResponse
    rw [hval]
    simp [hsc, hts, hmsg, hfail]
  · unfold parseTransactionStatusResponse
    rw [hval]
    simp [hsc, hts, hmsg, hfail]

/-- Witness for C2: a concrete failed body under HTTP status 200. -/
theorem failed_status_raises_provider_error_witness :
    parseInitiatePaymentResponse
      ⟨200, "OK", .obj [("statusCode", .str "1"), ("status", .str "failed"),
                        ("message", .str "insufficient balance")]⟩ =
      .error (.payStationError (.str "insufficient balance") (.str "1")) ∧
    parseTransactionStatusResponse
      ⟨200, "OK", .obj [("statusCode", .str "1"), ("status", .str "failed"),
                        ("message", .str "insufficient balance")]⟩ =
      .error (.payStationError (.str "insufficient balance") (.str "1")) :=
  failed_status_raises_provider_error
    ⟨200, "OK", .obj [("statusCode", .str "1"), ("status", .str "failed"),
                      ("message", .str "insufficient balance")]⟩
    [("statusCode", .str "1"), ("status", .str "failed"),
     ("message", .str "insufficient balance")]
    rfl rfl rfl rfl

/-- C9: the required-field check of both parsers is falsiness-based — a
body object on which statusCode, status and message are all present but
at least one is falsy is rejected with the missing-required-fields
ValidationError. -/
theorem falsy_required_field_rejected (response : HttpResponse)
    (fields : List (String × JSValue))
    (hobj : response.data = .obj fields)
    (hscP : (fields.lookup "statusCode").isSome = true)
    (hstP : (fields.lookup "status").isSome = true)
    (hmsgP : (fields.lookup "message").isSome = true)
    (hfalsy : truthy (jsGet response.data "statusCode") = false ∨
              truthy (jsGet response.data "status") = false ∨
              truthy (jsGet response.data "message") = false) :
    parseInitiatePaymentResponse response =
      .error (.validationError
        "Invalid response format: missing required fields (statusCode, status, message)") ∧
    parseTransactionStatusResponse response =
      .error (.validationError
        "Invalid response format: missing required fields (statusCode, status, message)") := by
  have hval : validateResponseStructure response = none := by
    unfold validateResponseStructure
    rw [hobj]
  have hcond : (¬ truthy (jsGet response.data "statusCode") ∨
                ¬ truthy (jsGet response.data "status") ∨
                ¬ truthy (jsGet response.data "message")) := by
    rcases hfalsy with h | h | h
    · exact Or.inl (by simp [h])
    · exact Or.inr (Or.inl (by simp [h]))
    · exact Or.inr (Or.inr (by simp [h]))
  constructor
  · unfold parseInitiatePaymentResponse
    rw [hval]
    simp only [if_pos hcond]
  · unfold parseTransactionStatusResponse
    rw [hval]
    simp only [if_pos hcond]

/-- Witness for C9: statusCode present as the number 0 (falsy), status
and message present and truthy. -/
theorem falsy_required_field_rejected_witness :
    parseInitiatePaymentResponse
      ⟨200, "OK", .obj [("statusCode", .num 0), ("status", .str "success"),
                        ("message", .str "ok")]⟩ =
      .error (.validationError
        "Invalid response format: missing required fields (statusCode, status, message)") ∧
    parseTransactionStatusResponse
      ⟨200, "OK", .obj [("statusCode", .num 0), ("status", .str "success"),
                        ("message", .str "ok")]⟩ =
      .error (.validationError
        "Invalid response format: missing required fields (statusCode, status, message)") :=
  falsy_required_field_rejected
    ⟨200, "OK", .obj [("statusCode", .num 0), ("status", .str "success"),
                      ("message", .str "ok")]⟩
    [("statusCode", .num 0), ("status", .str "success"), ("message", .str "ok")]
    rfl rfl rfl rfl (Or.inl rfl)

/-- Every successfully parsed transaction record comes from an object. -/
theorem parseTransactionData_ok_obj {v : JSValue} {td : TransactionData}
    (h : parseTransactionData v = .ok td) : ∃ tf, v = .obj tf := by
  cases v <;> simp_all [parseTransactionData]

/-- Counterexample to C10 as stated: a body with truthy statusCode,
status "pending" (not "failed") and truthy message, whose nested data
field is the truthy non-object 5 — parseTransactionStatusResponse throws
a ValidationError instead of succeeding with status "pending". -/
theorem nonfailed_status_counterexample :
    parseTransactionStatusResponse
      ⟨200, "OK", .obj [("statusCode", .str "1"), ("status", .str "pending"),
                        ("message", .str "m"), ("data", .num 5)]⟩ =
      .error (.validationError "Invalid transaction data format") := by rfl

/-- C10 (amended): the parsers never check that status equals "success" —
for a body object with truthy statusCode, status and message whose status
is not the string "failed", parseInitiatePaymentResponse succeeds with
the status value copied verbatim, and parseTransactionStatusResponse
does too provided its nested data field is falsy or parses successfully. -/
theorem nonfailed_status_copied_verbatim (response : HttpResponse)
    (fields : List (String × JSValue))
    (hobj : response.data = .obj fields)
    (hsc : truthy (jsGet response.data "statusCode") = true)
    (hts : truthy (jsGet response.data "status") = true)
    (hmsg : truthy (jsGet response.data "message") = true)
    (hnf : statusIsFailed (jsGet response.data "status") = false) :
    (∃ r, parseInitiatePaymentResponse response = .ok r ∧
       r.status = jsGet response.data "status") ∧
    (truthy (jsGet response.data "data") = false →
       ∃ r, parseTransactionStatusResponse response = .ok r ∧
         r.status = jsGet response.data "status") ∧
    (∀ td, parseTransactionData (jsGet response.data "data") = .ok td →
       ∃ r, parseTransactionStatusResponse response = .ok r ∧
         r.status = jsGet response.data "status") := by
  have hval : validateResponseStructure response = none := by
    unfold validateResponseStructure
    rw [hobj]
  have hcond : ¬ (¬ truthy (jsGet response.data "statusCode") ∨
                  ¬ truthy (jsGet response.data "status") ∨
                  ¬ truthy (jsGet response.data "message")) := by
    rintro (h | h | h)
    exacts [h hsc, h hts, h hmsg]
  refine ⟨?_, ?_, ?_⟩
  · unfold parseInitiatePaymentResponse
    rw [hval]
    simp only [hsc, hts, hmsg, hnf, if_neg hcond, Bool.false_eq_true, if_false]
    exact ⟨_, rfl, rfl⟩
  · intro hdat
    unfold parseTransactionStatusResponse
    rw [hval]
    simp only [hsc, hts, hmsg, hnf, hdat, if_neg hcond, Bool.false_eq_true, if_false]
    exact ⟨_, rfl, rfl⟩
  · intro td hptd
    have htruthy : truthy (jsGet response.data "data") = true := by
      obtain ⟨tf, htf⟩ := parseTransactionData_ok_obj hptd
      rw [htf]; rfl
    unfold parseTransactionStatusResponse
    rw [hval]
    simp only [hsc, hts, hmsg, hnf, htruthy, hptd, if_neg hcond, Bool.false_eq_true,
      if_false, if_true]
    exact ⟨_, rfl, rfl⟩

/-- Witness for C10 (amended): a "pending" body with no nested data. -/
theorem nonfailed_status_copied_verbatim_witness :
    (∃ r, parseInitiatePaymentResponse
        ⟨200, "OK", .obj [("statusCode", .str "1"), ("status", .str "pending"),
                          ("message", .str "m")]⟩ = .ok r ∧
       r.status = .str "pending") ∧
    (∃ r, parseTransactionStatusResponse
        ⟨200, "OK", .obj [("statusCode", .str "1"), ("status", .str "pending"),
                          ("message", .str "m")]⟩ = .ok r ∧
       r.status = .str "pending") := by
  have h := nonfailed_status_copied_verbatim
    ⟨200, "OK", .obj [("statusCode", .str "1"), ("status", .str "pending"),
                      ("message", .str "m")]⟩
    [("statusCode", .str "1"), ("status", .str "pending"), ("message", .str "m")]
    rfl rfl rfl rfl rfl
  exact ⟨h.1, h.2.1 rfl⟩

/-- Counterexample to C5 as stated: a valid non-failed body whose nested
transaction object is missing parses successfully (without a data
record) instead of throwing a ValidationError. -/
theorem missing_transaction_record_counterexample :
    parseTransactionStatusResponse
      ⟨200, "OK", .obj [("statusCode", .str "200"), ("status", .str "success"),
                        ("message", .str "ok")]⟩ =
      .ok { statusCode := "200", status := .str "success", message := "ok",
            data := none } := by rfl

/-- C5 (amended): for a top-level valid, non-failed transaction-status
body: a truthy non-object nested data field is rejected, a nested object
with a missing-or-falsy required field (invoiceNumber, transactionStatus
or transactionId) is rejected, and an absent (or falsy) nested data field
parses successfully with no data record. -/
theorem transaction_record_validation (response : HttpResponse)
    (fields : List (String × JSValue))
    (hobj : response.data = .obj fields)
    (hsc : truthy (jsGet response.data "statusCode") = true)
    (hts : truthy (jsGet response.data "status") = true)
    (hmsg : truthy (jsGet response.data "message") = true)
    (hnf : statusIsFailed (jsGet response.data "status") = false) :
    (truthy (jsGet response.data "data") = true →
       isObjectType (jsGet response.data "data") = false →
       parseTransactionStatusResponse response =
         .error (.validationError "Invalid transaction data format")) ∧
    (∀ tf, jsGet response.data "data" = .obj tf →
       (¬ truthy (jsGet (jsGet response.data "data") "invoiceNumber") ∨
        ¬ truthy (jsGet (jsGet response.data "data") "transactionStatus") ∨
        ¬ truthy (jsGet (jsGet response.data "data") "transactionId")) →
       parseTransactionStatusResponse response =
         .error (.validationError "Invalid transaction data: missing required fields")) ∧
    (truthy (jsGet response.data "data") = false →
       ∃ r, parseTransactionStatusResponse response = .ok r ∧ r.data = none) := by
  have hval : validateResponseStructure response = none := by
    unfold validateResponseStructure
    rw [hobj]
  have hcond : ¬ (¬ truthy (jsGet response.data "statusCode") ∨
                  ¬ truthy (jsGet response.data "status") ∨
                  ¬ truthy (jsGet response.data "message")) := by
    rintro (h | h | h)
    exacts [h hsc, h hts, h hmsg]
  refine ⟨?_, ?_, ?_⟩
  · intro hdat hnobj
    have herr : parseTransactionData (jsGet response.data "data") =
        .error (.validationError "Invalid transaction data format") := by
      cases hv : jsGet response.data "data" with
      | obj tf => rw [hv] at hnobj; exact absurd hnobj (by simp [isObjectType])
      | undef => rfl
      | nullv => rfl
      | boolean b => rfl
      | num n => rfl
      | str s => rfl
    have htruthy := hdat
    unfold parseTransactionStatusResponse
    rw [hval]
    simp only [if_neg hcond, hnf, htruthy, herr, Bool.false_eq_true, if_false, if_true]
  · intro tf htf hmissing
    have hdat : truthy (jsGet response.data "data") = true := by rw [htf]; rfl
    have herr : parseTransactionData (jsGet response.data "data") =
        .error (.validationError "Invalid transaction data: missing required fields") := by
      rw [htf] at hmissing ⊢
      unfold parseTransactionData
      simp only [if_pos hmissing]
    unfold parseTransactionStatusResponse
    rw [hval]
    simp only [if_neg hcond, hnf, hdat, herr, Bool.false_eq_true, if_false, if_true]
  · intro hdat
    unfold parseTransactionStatusResponse
    rw [hval]
    simp only [if_neg hcond, hnf, hdat, Bool.false_eq_true, if_false]
    exact ⟨_, rfl, rfl⟩

/-- Witness for C5 (amended): a nested object missing only transactionId
is rejected even though invoiceNumber and transactionStatus are
present. -/
theorem transaction_record_validation_witness :
    parseTransactionStatusResponse
      ⟨200, "OK", .obj [("statusCode", .str "200"), ("status", .str "success"),
        ("message", .str "ok"),
        ("data", .obj [("invoiceNumber", .str "INV-1"),
                       ("transactionStatus", .str "success")])]⟩ =
      .error (.validationError "Invalid transaction data: missing required fields") :=
  (transaction_record_validation
    ⟨200, "OK", .obj [("statusCode", .str "200"), ("status", .str "success"),
      ("message", .str "ok"),
      ("data", .obj [("invoiceNumber", .str "INV-1"),
                     ("transactionStatus", .str "success")])]⟩
    [("statusCode", .str "200"), ("status", .str "success"), ("message", .str "ok"),
     ("data", .obj [("invoiceNumber", .str "INV-1"),
                    ("transactionStatus", .str "success")])]
    rfl rfl rfl rfl rfl).2.1
    [("invoiceNumber", .str "INV-1"), ("transactionStatus", .str "success")]
    rfl (Or.inr (Or.inr (by decide)))

/-- C6: with every other initiate-payment field valid,
buildInitiatePaymentRequest rejects a numeric paymentAmount that is at
most 0 with a ValidationError and succeeds for a positive one — the
boundary lies exactly at 0, excluded. -/
theorem payment_amount_boundary (cfg : ConfigManagerState)
    (p : InitiatePaymentParams) (a : ℚ)
    (hamt : p.paymentAmount = .num a)
    (hinv : validateRequiredString p.invoiceNumber "invoiceNumber" = none)
    (hnam : validateRequiredString p.customerName "customerName" = none)
    (hpho : validateRequiredString p.customerPhone "customerPhone" = none)
    (heml : validateRequiredString p.customerEmail "customerEmail" = none)
    (hurl : validateRequiredString p.callbackUrl "callbackUrl" = none)
    (hpwc : validateOptionalNonNegNumber p.payWithCharge
      "payWithCharge must be a number" "payWithCharge cannot be negative" = none)
    (hemi : validateOptionalNonNegNumber p.emi
      "emi must be a number" "emi cannot be negative" = none)
    (hefm : validateEmailFormat p.customerEmail = none)
    (hufm : validateUrlFormat p.callbackUrl = none) :
    (a ≤ 0 → buildInitiatePaymentRequest cfg (some p) =
       .error (.validationError "paymentAmount must be greater than 0")) ∧
    (0 < a → ∃ r, buildInitiatePaymentRequest cfg (some p) = .ok r) := by
  constructor
  · intro hle
    have hv : validateInitiatePaymentParamsSome p =
        some (.validationError "paymentAmount must be greater than 0") := by
      unfold validateInitiatePaymentParamsSome
      rw [hinv, hnam, hpho, heml, hurl, hamt]
      simp [validatePaymentAmount, hle]
    simp only [buildInitiatePaymentRequest, hv]
  · intro hlt
    have hv : validateInitiatePaymentParamsSome p = none := by
      unfold validateInitiatePaymentParamsSome
      rw [hinv, hnam, hpho, heml, hurl, hamt, hpwc, hemi, hefm, hufm]
      simp [validatePaymentAmount, not_le.mpr hlt]
    simp only [buildInitiatePaymentRequest, hv]
    exact ⟨_, rfl⟩

/-- Witness for C6: a fully valid input with paymentAmount 10 builds
successfully, and the same input with paymentAmount 0 is rejected. -/
theorem payment_amount_boundary_witness :
    ((0 : ℚ) ≤ 0 ∧
      buildInitiatePaymentRequest sampleConfig
        (some { sampleParams with paymentAmount := .num 0 }) =
        .error (.validationError "paymentAmount must be greater than 0")) ∧
    ((0 : ℚ) < 10 ∧
      ∃ r, buildInitiatePaymentRequest sampleConfig (some sampleParams) = .ok r) :=
  ⟨⟨le_refl 0,
    (payment_amount_boundary sampleConfig { sampleParams with paymentAmount := .num 0 }
      0 rfl rfl rfl rfl rfl rfl rfl rfl rfl rfl).1 (le_refl 0)⟩,
   ⟨by norm_num,
    (payment_amount_boundary sampleConfig sampleParams 10
      rfl rfl rfl rfl rfl rfl rfl rfl rfl rfl).2 (by norm_num)⟩⟩

/-- C7: the three builder operations produce requests at the fixed
endpoints initiate-payment, transaction-status and v2/transaction-status
under the configured base URL, all POST with the form-encoded
Content-Type header and the JSON Accept header. -/
theorem builder_endpoints_and_headers (cfg : ConfigManagerState)
    (p : InitiatePaymentParams) (invoiceNumber transactionId : JSValue)
    (hp : validateInitiatePaymentParamsSome p = none)
    (hinv : validateRequiredString invoiceNumber "invoiceNumber" = none)
    (htid : validateRequiredString transactionId "transactionId" = none) :
    (∃ r, buildInitiatePaymentRequest cfg (some p) = .ok r ∧
       r.url = getBaseUrl cfg ++ "/initiate-payment" ∧ r.method = "POST" ∧
       r.headers = [("Content-Type", "application/x-www-form-urlencoded"),
                    ("Accept", "application/json")]) ∧
    (∃ r, buildTransactionStatusRequest cfg invoiceNumber = .ok r ∧
       r.url = getBaseUrl cfg ++ "/transaction-status" ∧ r.method = "POST" ∧
       r.headers = [("Content-Type", "application/x-www-form-urlencoded"),
                    ("Accept", "application/json")]) ∧
    (∃ r, buildTransactionStatusByIdRequest cfg transactionId = .ok r ∧
       r.url = getBaseUrl cfg ++ "/v2/transaction-status" ∧ r.method = "POST" ∧
       r.headers = [("Content-Type", "application/x-www-form-urlencoded"),
                    ("Accept", "application/json")]) := by
  refine ⟨?_, ?_, ?_⟩
  · simp only [buildInitiatePaymentRequest, hp]
    exact ⟨_, rfl, rfl, rfl, rfl⟩
  · simp only [buildTransactionStatusRequest, hinv]
    exact ⟨_, rfl, rfl, rfl, rfl⟩
  · simp only [buildTransactionStatusByIdRequest, htid]
    exact ⟨_, rfl, rfl, rfl, rfl⟩

/-- Witness for C7: the three requests built from concrete valid inputs
under the sandbox configuration. -/
theorem builder_endpoints_and_headers_witness :
    (∃ r, buildInitiatePaymentRequest sampleConfig (some sampleParams) = .ok r ∧
       r.url = "https://sandbox.paystation.com.bd/api/initiate-payment" ∧
       r.method = "POST" ∧
       r.headers = [("Content-Type", "application/x-www-form-urlencoded"),
                    ("Accept", "application/json")]) ∧
    (∃ r, buildTransactionStatusRequest sampleConfig (.str "INV-1") = .ok r ∧
       r.url = "https://sandbox.paystation.com.bd/api/transaction-status" ∧
       r.method = "POST" ∧
       r.headers = [("Content-Type", "application/x-www-form-urlencoded"),
                    ("Accept", "application/json")]) ∧
    (∃ r, buildTransactionStatusByIdRequest sampleConfig (.str "TX-9") = .ok r ∧
       r.url = "https://sandbox.paystation.com.bd/api/v2/transaction-status" ∧
       r.method = "POST" ∧
       r.headers = [("Content-Type", "application/x-www-form-urlencoded"),
                    ("Accept", "application/json")]) :=
  builder_endpoints_and_headers sampleConfig sampleParams
    (.str "INV-1") (.str "TX-9") rfl rfl rfl

/-- Counterexample to C4 as stated: a valid input whose optional currency
field is present as the empty string — the built body omits the currency
key even though the field is present in the input. -/
theorem optional_key_omission_counterexample :
    isUndefined { sampleParams with currency := JSValue.str "" }.currency = false ∧
    (buildInitiatePaymentRequest sampleConfig
        (some { sampleParams with currency := JSValue.str "" })).map
      (fun r => r.body.map Prod.fst) =
      .ok ["merchant_id", "password", "invoice_number", "payment_amount",
           "customer_name", "customer_phone", "customer_email", "callback_url"] ∧
    "currency" ∉ ["merchant_id", "password", "invoice_number", "payment_amount",
                  "customer_name", "customer_phone", "customer_email",
                  "callback_url"] :=
  ⟨rfl, rfl, by decide⟩

/-- C4 (amended): for every input passing validation, the built body's
key list is exactly the eight required snake_case keys followed by the
keys of the included optional fields — each string-valued optional
appears iff its value is truthy (present and nonempty), and
pay_with_charge and emi appear iff the field is defined. -/
theorem body_key_set (cfg : ConfigManagerState) (p : InitiatePaymentParams)
    (hp : validateInitiatePaymentParamsSome p = none) :
    (buildInitiatePaymentRequest cfg (some p)).map (fun r => r.body.map Prod.fst) =
      .ok (expectedBodyKeys p) := by
  simp only [buildInitiatePaymentRequest, hp]
  simp [expectedBodyKeys, Except.map, apply_ite (List.map Prod.fst)]

/-- Witness for C4 (amended): a valid input with currency "BDT" and emi 0
includes exactly the corresponding keys. -/
theorem body_key_set_witness :
    (buildInitiatePaymentRequest sampleConfig
        (some { sampleParams with currency := JSValue.str "BDT",
                                  emi := JSValue.num 0 })).map
      (fun r => r.body.map Prod.fst) =
      .ok ["merchant_id", "password", "invoice_number", "payment_amount",
           "customer_name", "customer_phone", "customer_email", "callback_url",
           "currency", "emi"] :=
  body_key_set sampleConfig
    { sampleParams with currency := JSValue.str "BDT", emi := JSValue.num 0 } rfl

/-- A falsy value is never a recognized environment value. -/
theorem envIncludes_false_of_falsy {v : JSValue} (h : truthy v = false) :
    envIncludes v = false := by
  cases v <;> simp_all [truthy, envIncludes, environmentValues]

/-- The spec-side recognized-environment check agrees with the code's
enum-membership check. -/
theorem specRecognizedEnv_eq_envIncludes (v : JSValue) :
    specRecognizedEnv v = envIncludes v := by
  cases v with
  | str s =>
      by_cases h1 : s = "sandbox" <;> by_cases h2 : s = "live" <;>
        simp [specRecognizedEnv, envIncludes, environmentValues, h1, h2]
  | undef => rfl
  | nullv => rfl
  | boolean b => rfl
  | num n => rfl
  | obj fields => rfl

/-- The code-side config validation passes exactly when the spec-side
rejection condition does not hold. -/
theorem validateConfig_none_iff (config : Option RawConfig) :
    validateConfig config = none ↔ specConfigRejected config = false := by
  cases config with
  | none => simp [validateConfig, specConfigRejected]
  | some c =>
    simp only [validateConfig, specConfigRejected]
    split_ifs with h1 h2 h3 h4 h5 h6 <;>
      simp_all [Bool.not_eq_true, specRecognizedEnv_eq_envIncludes,
        envIncludes_false_of_falsy]

/-- Every error the config validation produces is a ValidationError. -/
theorem validateConfig_error_is_validation (config : Option RawConfig) (e : PSError)
    (h : validateConfig config = some e) : ∃ msg, e = .validationError msg := by
  cases config with
  | none =>
      simp [validateConfig] at h
      exact ⟨_, h.symm⟩
  | some c =>
      simp only [validateConfig] at h
      split_ifs at h <;> simp_all <;> exact ⟨_, h.symm⟩

/-- C8: constructing the configuration manager fails — with an error that
is a ValidationError — exactly when the config is absent, merchantId or
password is not a string or is empty/whitespace-only after trimming, or
environment is not one of the two recognized values (which covers an
absent environment); every config passing these checks constructs
successfully and the accessors return the supplied values. -/
theorem config_validation_exactness (config : Option RawConfig) :
    (specConfigRejected config = true →
       ∃ msg, mkConfigManager config = .error (.validationError msg)) ∧
    (specConfigRejected config = false →
       ∀ raw m pw env, config = some raw →
         raw.merchantId = .str m → raw.password = .str pw → raw.environment = .str env →
         ∃ c, mkConfigManager config = .ok c ∧
           getMerchantId c = m ∧ getPassword c = pw ∧ getEnvironment c = env) ∧
    (∀ c, mkConfigManager config = .ok c → specConfigRejected config = false) := by
  refine ⟨?_, ?_, ?_⟩
  · intro hrej
    cases config with
    | none => exact ⟨"Configuration is required", rfl⟩
    | some c =>
        cases hv : validateConfig (some c) with
        | none =>
            rw [validateConfig_none_iff] at hv
            rw [hv] at hrej
            cases hrej
        | some e =>
            obtain ⟨msg, hmsg⟩ := validateConfig_error_is_validation (some c) e hv
            refine ⟨msg, ?_⟩
            simp [mkConfigManager, hv, hmsg]
  · intro hok raw m pw env hconfig hm hpw henv
    subst hconfig
    have hv : validateConfig (some raw) = none := (validateConfig_none_iff _).mpr hok
    refine ⟨⟨jsToString raw.merchantId, jsToString raw.password, jsToString raw.environment⟩,
      ?_, ?_, ?_, ?_⟩
    · simp [mkConfigManager, hv]
    · rw [hm]; rfl
    · rw [hpw]; rfl
    · rw [henv]; rfl
  · intro c hc
    cases config with
    | none => simp [mkConfigManager] at hc
    | some raw =>
        rw [← validateConfig_none_iff]
        cases hv : validateConfig (some raw) with
        | none => rfl
        | some e => simp [mkConfigManager, hv] at hc

/-- Witness for C8: a concrete live-environment config constructs and its
accessors return the supplied credentials and environment. -/
theorem config_validation_exactness_witness :
    specConfigRejected (some ⟨.str "m1", .str "s3cret", .str "live"⟩) = false ∧
    ∃ c, mkConfigManager (some ⟨.str "m1", .str "s3cret", .str "live"⟩) = .ok c ∧
      getMerchantId c = "m1" ∧ getPassword c = "s3cret" ∧ getEnvironment c = "live" :=
  ⟨rfl,
   (config_validation_exactness (some ⟨.str "m1", .str "s3cret", .str "live"⟩)).2.1
     rfl ⟨.str "m1", .str "s3cret", .str "live"⟩ "m1" "s3cret" "live" rfl rfl rfl rfl⟩

/-- Counterexample to C3 as stated: HTTP 401 whose body is an object with
a message field holding the empty string.  The claim requires the body's
message ("") to be used, but the code's truthiness-based extraction falls
back to the default "Authentication failed". -/
theorem error_mapping_counterexample :
    parseErrorResponse ⟨401, "Unauthorized", .obj [("message", .str "")]⟩ =
      .authenticationError "Authentication failed" "401" ∧
    parseErrorResponse ⟨401, "Unauthorized", .obj [("message", .str "")]⟩ ≠
      .authenticationError "" "401" := by
  refine ⟨rfl, ?_⟩
  intro h
  rw [show parseErrorResponse ⟨401, "Unauthorized", .obj [("message", .str "")]⟩ =
      .authenticationError "Authentication failed" "401" from rfl] at h
  injection h with h1 h2
  exact absurd h1 (by decide)

/-- The code's error-message extraction (with its default) agrees with
the spec-side description: the stringified message of a body that is an
object with a truthy message field, else the default. -/
theorem extractErrorMessage_getD_eq (response : HttpResponse) (d : String) :
    (extractErrorMessage response).getD d = specErrorMessage response.data d := by
  cases hdata : response.data with
  | obj fields =>
      simp [extractErrorMessage, specErrorMessage, hdata, truthy, isObjectType]
      split <;> simp_all
  | undef => simp [extractErrorMessage, specErrorMessage, hdata, truthy, isObjectType]
  | nullv => simp [extractErrorMessage, specErrorMessage, hdata, truthy, isObjectType]
  | boolean b =>
      cases b <;> simp [extractErrorMessage, specErrorMessage, hdata, truthy, isObjectType]
  | num n => simp [extractErrorMessage, specErrorMessage, hdata, truthy, isObjectType]
  | str s => simp [extractErrorMessage, specErrorMessage, hdata, truthy, isObjectType]

/-- C3 (amended): for every wire response with HTTP status at least 400,
parseErrorResponse throws exactly an AuthenticationError for 401/403, a
ValidationError for 400 and a generic PayStationError otherwise, the
message taken from the body only when the body is an object with a truthy
message field (stringified), else the stated default; the
AuthenticationError and PayStationError carry the HTTP status as their
code. -/
theorem error_response_mapping (response : HttpResponse)
    (hge : 400 ≤ response.status) :
    (response.status = 401 ∨ response.status = 403 →
       parseErrorResponse response =
         .authenticationError (specErrorMessage response.data "Authentication failed")
           (toString response.status)) ∧
    (response.status = 400 →
       parseErrorResponse response =
         .validationError (specErrorMessage response.data "Invalid request parameters")) ∧
    (response.status ≠ 400 → response.status ≠ 401 → response.status ≠ 403 →
       parseErrorResponse response =
         .payStationError
           (.str (specErrorMessage response.data
             ("HTTP " ++ toString response.status ++ ": " ++ response.statusText)))
           (.str (toString response.status))) := by
  refine ⟨?_, ?_, ?_⟩
  · intro h
    unfold parseErrorResponse
    rw [if_pos h, extractErrorMessage_getD_eq]
  · intro h
    have hn : ¬ (response.status = 401 ∨ response.status = 403) := by
      rintro (h1 | h1) <;> omega
    unfold parseErrorResponse
    rw [if_neg hn, if_pos h, extractErrorMessage_getD_eq]
  · intro h1 h2 h3
    have hn : ¬ (response.status = 401 ∨ response.status = 403) := by
      rintro (h4 | h4) <;> [exact h2 h4; exact h3 h4]
    unfold parseErrorResponse
    rw [if_neg hn, if_neg h1, extractErrorMessage_getD_eq]

/-- Witness for C3 (amended): HTTP 500 with a truthy body message maps to
a PayStationError carrying that message and the status "500". -/
theorem error_response_mapping_witness :
    400 ≤ 500 ∧
    parseErrorResponse ⟨500, "Server Error", .obj [("message", .str "boom")]⟩ =
      .payStationError (.str "boom") (.str "500") :=
  ⟨by decide,
   (error_response_mapping ⟨500, "Server Error", .obj [("message", .str "boom")]⟩
     (by decide)).2.2 (by decide) (by decide) (by decide)⟩

/-- The spec rule for a required string field decides exactly the code's
required-string check, with the code's field-specific message. -/
theorem requiredString_rule_aux (v : JSValue) (name : String) :
    (if (!specNonEmptyString v) = true then some (requiredStringError v name) else none) =
      validateRequiredString v name := by
  cases v with
  | str s =>
      by_cases h : (trimChars s).isEmpty = true <;>
        simp [specNonEmptyString, requiredStringError, validateRequiredString, isString, h]
  | undef => rfl
  | nullv => rfl
  | boolean b => rfl
  | num n => rfl
  | obj fields => rfl

/-- Each spec rule's contribution coincides with the corresponding check
the code performs. -/
theorem ruleCheck_eq_component (p : InitiatePaymentParams) :
    ruleCheck p .paramsPresent = none ∧
    ruleCheck p .invoiceNumberString = validateRequiredString p.invoiceNumber "invoiceNumber" ∧
    ruleCheck p .customerNameString = validateRequiredString p.customerName "customerName" ∧
    ruleCheck p .customerPhoneString = validateRequiredString p.customerPhone "customerPhone" ∧
    ruleCheck p .customerEmailString = validateRequiredString p.customerEmail "customerEmail" ∧
    ruleCheck p .callbackUrlString = validateRequiredString p.callbackUrl "callbackUrl" ∧
    ruleCheck p .paymentAmountPositive = validatePaymentAmount p.paymentAmount ∧
    ruleCheck p .payWithChargeNonNegative =
      validateOptionalNonNegNumber p.payWithCharge
        "payWithCharge must be a number" "payWithCharge cannot be negative" ∧
    ruleCheck p .emiNonNegative =
      validateOptionalNonNegNumber p.emi
        "emi must be a number" "emi cannot be negative" ∧
    ruleCheck p .customerEmailPattern = validateEmailFormat p.customerEmail ∧
    ruleCheck p .callbackUrlParses = validateUrlFormat p.callbackUrl := by
  refine ⟨rfl, ?_, ?_, ?_, ?_, ?_, ?_, ?_, ?_, ?_, ?_⟩
  · exact requiredString_rule_aux p.invoiceNumber "invoiceNumber"
  · exact requiredString_rule_aux p.customerName "customerName"
  · exact requiredString_rule_aux p.customerPhone "customerPhone"
  · exact requiredString_rule_aux p.customerEmail "customerEmail"
  · exact requiredString_rule_aux p.callbackUrl "callbackUrl"
  · unfold ruleCheck ruleViolated ruleError
    cases p.paymentAmount with
    | num n => by_cases h : n ≤ 0 <;> simp [validatePaymentAmount, isNumber, h]
    | undef => rfl
    | nullv => rfl
    | boolean b => rfl
    | str s => rfl
    | obj fields => rfl
  · unfold ruleCheck ruleViolated ruleError
    cases p.payWithCharge with
    | num n => by_cases h : n < 0 <;> simp [validateOptionalNonNegNumber, isNumber, h]
    | undef => rfl
    | nullv => rfl
    | boolean b => rfl
    | str s => rfl
    | obj fields => rfl
  · unfold ruleCheck ruleViolated ruleError
    cases p.emi with
    | num n => by_cases h : n < 0 <;> simp [validateOptionalNonNegNumber, isNumber, h]
    | undef => rfl
    | nullv => rfl
    | boolean b => rfl
    | str s => rfl
    | obj fields => rfl
  · unfold ruleCheck ruleViolated ruleError
    cases hb : isValidEmail (jsToString p.customerEmail) <;>
      simp [validateEmailFormat, hb]
  · unfold ruleCheck ruleViolated ruleError
    cases hb : isValidUrl (jsToString p.callbackUrl) <;>
      simp [validateUrlFormat, hb]

/-- A right-nested chain of rule checks yields the error of the earliest
violated rule of the list. -/
theorem ruleChain_eq_filterHead (p : InitiatePaymentParams) (l : List InitiateRule) :
    l.foldr (fun r acc => ruleCheck p r <|> acc) none =
      ((l.filter (ruleViolated p)).head?).map (ruleError p) := by
  induction l with
  | nil => rfl
  | cons r t ih =>
      rw [List.foldr_cons, List.filter_cons]
      by_cases h : ruleViolated p r = true
      · have hc : ruleCheck p r = some (ruleError p r) := by simp [ruleCheck, h]
        rw [hc, Option.some_orElse, if_pos h]
        rfl
      · have hc : ruleCheck p r = none := by simp [ruleCheck, h]
        rw [hc, Option.none_orElse, if_neg h, ih]

/-- The code's validation cascade is the chain of the spec's rules in the
spec's fixed order. -/
theorem validateSome_eq_chain (p : InitiatePaymentParams) :
    validateInitiatePaymentParamsSome p =
      initiateRuleOrder.foldr (fun r acc => ruleCheck p r <|> acc) none := by
  obtain ⟨h0, h1, h2, h3, h4, h5, h6, h7, h8, h9, h10⟩ := ruleCheck_eq_component p
  unfold validateInitiatePaymentParamsSome initiateRuleOrder
  simp only [List.foldr_cons, List.foldr_nil, h0, h1, h2, h3, h4, h5, h6, h7, h8, h9, h10,
    Option.none_orElse, Option.orElse_none]

/-- C1: buildInitiatePaymentRequest's validator throws the
ValidationError of the first violated rule in the spec's fixed order —
params present; each required string field in order; paymentAmount a
positive number; payWithCharge and emi nonnegative numbers if present;
the email pattern; the callback-URL check — and throws nothing when
every rule holds. -/
theorem initiate_validation_order :
    validateInitiatePaymentParams none =
      some (.validationError "Payment parameters are required") ∧
    ∀ p : InitiatePaymentParams,
      validateInitiatePaymentParams (some p) = (firstViolatedRule p).map (ruleError p) := by
  refine ⟨rfl, fun p => ?_⟩
  show validateInitiatePaymentParamsSome p = _
  rw [validateSome_eq_chain, ruleChain_eq_filterHead]
  rfl

/-- Witness for C1: on an input violating both the invoiceNumber rule and
the email rule, the earlier rule's error surfaces. -/
theorem initiate_validation_order_witness :
    validateInitiatePaymentParams
      (some { sampleParams with invoiceNumber := .str " ",
                                customerEmail := .str "nope" }) =
      some (.validationError "invoiceNumber cannot be empty or whitespace only") :=
  (initiate_validation_order.2
    { sampleParams with invoiceNumber := .str " ", customerEmail := .str "nope" }).trans
    (by rfl)

end PayStation
